import Mathlib

/-!
Shallow embedding of `frontend_developing/repositories/conference_instance_repository.py`.

The database session is modelled as an explicit state `DB` holding the four
tables (`Conference`, `ConferenceInstance`, `Paper`, `Session`) as lists of
rows.  Each repository method becomes a Lean function over `DB`; `upsert`,
the only writer, returns the new state, and its possible `ValueError` is an
`Except` value.  SQLAlchemy query combinators are translated pointwise:
`filter` / `filter_by` become `List.filter` / `List.find?`, `distinct`
becomes `List.dedup`, `order_by ... desc` becomes `List.insertionSort` with
the corresponding relation, joins become existential / counting predicates
over the joined table, and `func.count` over an outer join counts the rows
of the grouped join (multiplicity of matching `Conference` rows times the
number of matching `Paper` rows).  Python keyword arguments (`**kwargs`) are
modelled as an association list of string fields stored in the `extra`
field map of a `ConferenceInstance`; `setattr` is `setField` on that map.
-/

namespace ConfRepo

/-- A row of the `Conference` table: identity `conference_id` and a display name. -/
structure Conference where
  conference_id : String
  name : String
deriving DecidableEq

/-- A row of the `ConferenceInstance` table.  Fixed columns plus the map of
additional attributes supplied at upsert time. -/
structure ConferenceInstance where
  instance_id : Nat
  conference_id : String
  conference_name : String
  year : Int
  extra : List (String × String)
deriving DecidableEq

/-- A row of the `Paper` table; only `paper_id` and the owning instance matter here. -/
structure Paper where
  paper_id : Nat
  instance_id : Nat
deriving DecidableEq

/-- A row of the `Session` table with its eagerly loaded speaker relation. -/
structure Session where
  session_id : Nat
  instance_id : Nat
  speaker_to_session : List String
deriving DecidableEq

/-- The database state seen through the injected session: the four tables and
the generator for the next `ConferenceInstance` primary key. -/
structure DB where
  conferences : List Conference
  instances : List ConferenceInstance
  papers : List Paper
  sessions : List Session
  nextInstanceId : Nat
deriving DecidableEq

/-- Python `setattr` on the field map: overwrite the binding of `k` if
present, otherwise add it. -/
def setField : List (String × String) → String → String → List (String × String)
  | [], k, v => [(k, v)]
  | (k', v') :: rest, k, v =>
    if k' == k then (k, v) :: rest else (k', v') :: setField rest k v

/-- Read a field from the field map. -/
def lookupField : List (String × String) → String → Option String
  | [], _ => none
  | (k', v') :: rest, k => if k' == k then some v' else lookupField rest k

/-- The field map built by passing `kwargs` to a constructor (dict semantics:
a later binding of the same key overwrites an earlier one). -/
def dictOf (kwargs : List (String × String)) : List (String × String) :=
  kwargs.foldl (fun m kv => setField m kv.1 kv.2) []

/-- The loop `for key, value in kwargs.items(): setattr(instance, key, value)`. -/
def setattrs (inst : ConferenceInstance) (kwargs : List (String × String)) : ConferenceInstance :=
  { inst with extra := kwargs.foldl (fun m kv => setField m kv.1 kv.2) inst.extra }

/-- The `filter_by(conference_id=conference_id, year=year)` predicate of `upsert`. -/
def pairPred (cid : String) (yr : Int) (i : ConferenceInstance) : Bool :=
  i.conference_id == cid && i.year == yr

/-- Mutate the first element satisfying `p` in place (SQLAlchemy mutates the
row object returned by `.first()`). -/
def updateFirst {α : Type} : List α → (α → Bool) → (α → α) → List α
  | [], _, _ => []
  | x :: xs, p, f => if p x then f x :: xs else x :: updateFirst xs p f

/-- Method `ConferenceInstanceRepository.upsert`: check the parent `Conference`
exists (else `ValueError`), then update the first instance row matching
`(conference_id, year)` or insert a fresh row, and commit. -/
def upsert (db : DB) (conference_id name : String) (year : Int)
    (kwargs : List (String × String)) : Except String ConferenceInstance × DB :=
  match db.conferences.find? (fun c => c.conference_id == conference_id) with
  | none => (Except.error "Conference not found", db)
  | some _ =>
    match db.instances.find? (pairPred conference_id year) with
    | some inst =>
      (Except.ok (setattrs inst kwargs),
       { db with
         instances := updateFirst db.instances (pairPred conference_id year)
           (fun i => setattrs i kwargs) })
    | none =>
      let inst : ConferenceInstance :=
        { instance_id := db.nextInstanceId, conference_id := conference_id,
          conference_name := name, year := year, extra := dictOf kwargs }
      (Except.ok inst,
       { db with instances := db.instances ++ [inst],
                 nextInstanceId := db.nextInstanceId + 1 })

/-- Method `get_all_conferences`: distinct conference names, sorted ascending by
Python `sorted`. -/
def get_all_conferences (db : DB) : List String :=
  List.insertionSort (· ≤ ·) (db.conferences.map Conference.name).dedup

/-- Method `get_all_years`: distinct instance years ordered descending. -/
def get_all_years (db : DB) : List Int :=
  List.insertionSort (fun a b => b ≤ a) (db.instances.map ConferenceInstance.year).dedup

/-- Join test: the conference row `cid` has an instance in year `y`. -/
def hasInstanceInYear (db : DB) (cid : String) (y : Int) : Bool :=
  db.instances.any (fun i => i.conference_id == cid && i.year == y)

/-- Method `get_conferences_by_year`: names of conferences inner-joined to an
instance of the given year, distinct, ordered by name. -/
def get_conferences_by_year (db : DB) (year : Int) : List String :=
  List.insertionSort (· ≤ ·)
    ((db.conferences.filter (fun c => hasInstanceInYear db c.conference_id year)).map
      Conference.name).dedup

/-- Join test: the instance with conference key `cid` joins a `Conference`
row named `c`. -/
def isNamed (db : DB) (c : String) (cid : String) : Bool :=
  db.conferences.any (fun conf => conf.name == c && conf.conference_id == cid)

/-- Method `get_conference_years`: years of the named conference, distinct,
descending. -/
def get_conference_years (db : DB) (conference : String) : List Int :=
  List.insertionSort (fun a b => b ≤ a)
    ((db.instances.filter (fun i => isNamed db conference i.conference_id)).map
      ConferenceInstance.year).dedup

/-- Number of `Paper` rows outer-joined to the instance `iid`. -/
def paperCount (db : DB) (iid : Nat) : Nat :=
  (db.papers.filter (fun p => p.instance_id == iid)).length

/-- Number of `Conference` rows named `c` with key `cid` (the multiplicity an
instance row acquires in the `Conference ⋈ ConferenceInstance` join). -/
def confMult (db : DB) (c : String) (cid : String) : Nat :=
  (db.conferences.filter (fun conf => conf.name == c && conf.conference_id == cid)).length

/-- The `year` argument of `get_conference_stats`: the Python parameter is
`Optional[int] = None` but the code also compares it against the string
sentinel `"All Years"`. -/
inductive YearArg where
  | noYear
  | someYear (n : Int)
  | allYears
deriving DecidableEq

/-- The guard `if year and year != "All Years"` of `get_conference_stats`:
the extra filter `ConferenceInstance.year == year` is applied only when the
argument is a truthy integer (so not `None`, not `0`) different from the
sentinel.  `matchesYearFilter yf y` is whether a row of year `y` survives. -/
def matchesYearFilter (yf : YearArg) (y : Int) : Bool :=
  match yf with
  | YearArg.someYear n => if n = 0 then true else y == n
  | _ => true

/-- Method `get_conference_stats`: instances of the named conference surviving the
year filter, each grouped with `count(Paper.paper_id)` over the outer join,
ordered by year descending. -/
def get_conference_stats (db : DB) (conference : String) (yf : YearArg) :
    List (ConferenceInstance × Nat) :=
  List.insertionSort (fun p q => q.1.year ≤ p.1.year)
    ((db.instances.filter
        (fun i => isNamed db conference i.conference_id && matchesYearFilter yf i.year)).map
      (fun i => (i, confMult db conference i.conference_id * paperCount db i.instance_id)))

/-- Papers counted for the group of conference name `nm` in
`get_yearly_conference_stats`: summed over all join rows of that name. -/
def yearlyCount (db : DB) (nm : String) (year : Int) : Nat :=
  ((db.conferences.filter (fun c => c.name == nm)).map (fun c =>
    ((db.instances.filter (fun i => i.conference_id == c.conference_id && i.year == year)).map
      (fun i => paperCount db i.instance_id)).sum)).sum

/-- Method `get_yearly_conference_stats`: per conference name with an instance in
the year, the paper count of its group. -/
def get_yearly_conference_stats (db : DB) (year : Int) : List (String × Nat) :=
  (((db.conferences.filter (fun c => hasInstanceInYear db c.conference_id year)).map
      Conference.name).dedup).map (fun nm => (nm, yearlyCount db nm year))

/-- Method `get_sessions_by_instance` (body of the `try` block): sessions filtered
by `instance_id`, speakers already eagerly loaded in the row. -/
def get_sessions_by_instance (db : DB) (iid : Nat) : List Session :=
  db.sessions.filter (fun s => s.instance_id == iid)

/-- Method `get_instance_by_year_and_name` (body of the `try` block):
`filter_by(year=year, conference_name=conference_name).first()`. -/
def get_instance_by_year_and_name (db : DB) (year : Int) (conference_name : String) :
    Option ConferenceInstance :=
  db.instances.find? (fun i => i.year == year && i.conference_name == conference_name)

/-- The `except Exception: ... return []` wrapper of the list-returning read
methods: an error from the underlying query collapses to the empty list. -/
def catchToList {α : Type} : Except String (List α) → List α
  | Except.ok l => l
  | Except.error _ => []

/-- The `except Exception: ... return None` wrapper of
`get_instance_by_year_and_name`. -/
def catchToOption {α : Type} : Except String (Option α) → Option α
  | Except.ok o => o
  | Except.error _ => none

/-- State-passing form of `get_all_conferences` (reads return the state they
were given). -/
def get_all_conferences_op (db : DB) : List String × DB :=
  (get_all_conferences db, db)

/-- State-passing form of `get_all_years`. -/
def get_all_years_op (db : DB) : List Int × DB :=
  (get_all_years db, db)

/-- State-passing form of `get_conferences_by_year`. -/
def get_conferences_by_year_op (db : DB) (year : Int) : List String × DB :=
  (get_conferences_by_year db year, db)

/-- State-passing form of `get_conference_years`. -/
def get_conference_years_op (db : DB) (conference : String) : List Int × DB :=
  (get_conference_years db conference, db)

/-- State-passing form of `get_conference_stats`. -/
def get_conference_stats_op (db : DB) (conference : String) (yf : YearArg) :
    List (ConferenceInstance × Nat) × DB :=
  (get_conference_stats db conference yf, db)

/-- State-passing form of `get_yearly_conference_stats`. -/
def get_yearly_conference_stats_op (db : DB) (year : Int) : List (String × Nat) × DB :=
  (get_yearly_conference_stats db year, db)

/-- State-passing form of `get_sessions_by_instance`. -/
def get_sessions_by_instance_op (db : DB) (iid : Nat) : List Session × DB :=
  (get_sessions_by_instance db iid, db)

/-- State-passing form of `get_instance_by_year_and_name`. -/
def get_instance_by_year_and_name_op (db : DB) (year : Int) (conference_name : String) :
    Option ConferenceInstance × DB :=
  (get_instance_by_year_and_name db year conference_name, db)

/-- The empty database state. -/
def emptyDB : DB := ⟨[], [], [], [], 0⟩

/-- A state with one conference "A" and a single instance in year 5, used to
exhibit the behaviour of the year filter at 0. -/
def yearFilterDB : DB :=
  ⟨[⟨"a", "A"⟩], [⟨1, "a", "A", 5, []⟩], [], [], 2⟩

/-- The scenario state of the spec: conference "AAAI" with a 2022 instance
owning five papers and a 2023 instance owning none. -/
def aaaiDB : DB :=
  ⟨[⟨"aaai", "AAAI"⟩],
   [⟨1, "aaai", "AAAI", 2022, []⟩, ⟨2, "aaai", "AAAI", 2023, []⟩],
   [⟨1, 1⟩, ⟨2, 1⟩, ⟨3, 1⟩, ⟨4, 1⟩, ⟨5, 1⟩],
   [], 3⟩

/-- A state holding one conference and no instances, exercising both upsert
paths. -/
def upsertDB : DB := ⟨[⟨"neu", "NeurIPS"⟩], [], [], [], 10⟩

instance : IsTotal (ConferenceInstance × Nat) (fun p q => q.1.year ≤ p.1.year) :=
  ⟨fun a b => le_total b.1.year a.1.year⟩

instance : IsTrans (ConferenceInstance × Nat) (fun p q => q.1.year ≤ p.1.year) :=
  ⟨fun _ _ _ h1 h2 => le_trans h2 h1⟩

/-! ### Helper lemmas -/

theorem find_eq_filter_head {α : Type} (p : α → Bool) :
    ∀ l : List α, l.find? p = (l.filter p).head?
  | [] => rfl
  | x :: xs => by
    cases h : p x
    · rw [List.find?_cons_of_neg _ (by simp [h]), List.filter_cons_of_neg (by simp [h]),
        find_eq_filter_head p xs]
    · rw [List.find?_cons_of_pos _ h, List.filter_cons_of_pos h, List.head?]

theorem filter_updateFirst {α : Type} (p : α → Bool) (f : α → α) (hp : ∀ a, p (f a) = p a) :
    ∀ l : List α, (updateFirst l p f).filter p =
      match l.filter p with
      | [] => ([] : List α)
      | a :: t => f a :: t
  | [] => rfl
  | x :: xs => by
    cases h : p x
    · simp [updateFirst, List.filter, h, filter_updateFirst p f hp xs]
    · simp [updateFirst, List.filter, h, hp x]

theorem lookupField_setField_self (k v : String) :
    ∀ m : List (String × String), lookupField (setField m k v) k = some v
  | [] => by simp [setField, lookupField]
  | (k', v') :: tl => by
    by_cases h : k' = k
    · simp [setField, lookupField, h]
    · simp [setField, lookupField, h, lookupField_setField_self k v tl]

theorem lookupField_setField_ne (k k' v : String) (h : k' ≠ k) :
    ∀ m : List (String × String), lookupField (setField m k' v) k = lookupField m k
  | [] => by simp [setField, lookupField, h]
  | (a, b) :: tl => by
    by_cases ha : a = k'
    · simp [setField, lookupField, ha, h]
    · by_cases hak : a = k
      · have hkk : ¬k = k' := fun he => h he.symm
        simp [setField, lookupField, ha, hak, hkk]
      · simp [setField, lookupField, ha, hak, lookupField_setField_ne k k' v h tl]

theorem lookupField_foldl_not_mem (k : String) :
    ∀ (l : List (String × String)) (m : List (String × String)), k ∉ l.map Prod.fst →
      lookupField (l.foldl (fun m kv => setField m kv.1 kv.2) m) k = lookupField m k
  | [], _, _ => rfl
  | (k0, v0) :: tl, m, h => by
    simp only [List.map, List.mem_cons, not_or] at h
    rw [List.foldl_cons, lookupField_foldl_not_mem k tl _ h.2,
      lookupField_setField_ne k k0 v0 (fun he => h.1 he.symm) m]

theorem lookupField_foldl_mem :
    ∀ (l : List (String × String)) (m : List (String × String)), (l.map Prod.fst).Nodup →
      ∀ kv ∈ l, lookupField (l.foldl (fun m kv => setField m kv.1 kv.2) m) kv.1 = some kv.2
  | [], _, _, kv, hkv => absurd hkv (List.not_mem_nil kv)
  | (k0, v0) :: tl, m, hnd, kv, hkv => by
    simp only [List.map, List.nodup_cons] at hnd
    rcases List.mem_cons.mp hkv with h | h
    · subst h
      rw [List.foldl_cons, lookupField_foldl_not_mem _ tl _ hnd.1,
        lookupField_setField_self]
    · exact List.foldl_cons _ _ ▸ lookupField_foldl_mem tl (setField m k0 v0) hnd.2 kv h

theorem sorted_lt_of_le_nodup {α : Type} [LinearOrder α] {l : List α}
    (hs : List.Sorted (· ≤ ·) l) (hn : l.Nodup) : List.Sorted (· < ·) l :=
  (hs.and hn).imp fun h => lt_of_le_of_ne h.1 h.2

theorem sorted_gt_of_ge_nodup {α : Type} [LinearOrder α] {l : List α}
    (hs : List.Sorted (fun a b => b ≤ a) l) (hn : l.Nodup) :
    List.Sorted (fun a b => b < a) l :=
  (hs.and hn).imp fun h => lt_of_le_of_ne h.1 (Ne.symm h.2)

theorem isNamed_iff (db : DB) (c cid : String) :
    isNamed db c cid = true ↔
      ∃ conf ∈ db.conferences, conf.name = c ∧ conf.conference_id = cid := by
  simp [isNamed, List.any_eq_true]

theorem hasInstanceInYear_iff (db : DB) (cid : String) (y : Int) :
    hasInstanceInYear db cid y = true ↔
      ∃ i ∈ db.instances, i.conference_id = cid ∧ i.year = y := by
  simp [hasInstanceInYear, List.any_eq_true]

theorem upsert_conferences (db : DB) (cid nm : String) (yr : Int)
    (kwargs : List (String × String)) :
    ((upsert db cid nm yr kwargs).2).conferences = db.conferences := by
  cases h1 : db.conferences.find? (fun c => c.conference_id == cid) with
  | none => simp [upsert, h1]
  | some conf =>
    cases h2 : db.instances.find? (pairPred cid yr) with
    | none => simp [upsert, h1, h2]
    | some inst => simp [upsert, h1, h2]

theorem pairPred_setattrs (cid : String) (yr : Int) (kwargs : List (String × String))
    (i : ConferenceInstance) : pairPred cid yr (setattrs i kwargs) = pairPred cid yr i := rfl

theorem upsert_filter_pair (db : DB) (cid nm : String) (yr : Int)
    (kwargs : List (String × String))
    (hc : (db.conferences.find? (fun c => c.conference_id == cid)).isSome = true) :
    ((upsert db cid nm yr kwargs).2).instances.filter (pairPred cid yr) =
      match db.instances.filter (pairPred cid yr) with
      | [] => [{ instance_id := db.nextInstanceId, conference_id := cid,
                 conference_name := nm, year := yr, extra := dictOf kwargs }]
      | a :: t => setattrs a kwargs :: t := by
  cases h1 : db.conferences.find? (fun c => c.conference_id == cid) with
  | none => rw [h1] at hc; simp at hc
  | some conf =>
    cases h2 : db.instances.find? (pairPred cid yr) with
    | none =>
      have hf : db.instances.filter (pairPred cid yr) = [] := by
        rw [find_eq_filter_head, List.head?_eq_none_iff] at h2
        exact h2
      simp only [upsert, h1, h2, List.filter_append, hf]
      simp [pairPred]
    | some a =>
      rw [find_eq_filter_head] at h2
      cases hl : db.instances.filter (pairPred cid yr) with
      | nil => rw [hl] at h2; simp at h2
      | cons b t =>
        rw [hl] at h2
        simp only [List.head?] at h2
        injection h2 with hba
        subst hba
        simp only [upsert, h1]
        rw [find_eq_filter_head, hl]
        simp only [List.head?]
        rw [filter_updateFirst (pairPred cid yr) (fun i => setattrs i kwargs)
          (pairPred_setattrs cid yr kwargs), hl]

/-! ### Claim theorems -/

/-- C3: upsert with a conference_id for which no Conference row exists raises
the "not found" error and leaves the database state unchanged. -/
theorem upsert_unknown_conference (db : DB) (cid nm : String) (yr : Int)
    (kwargs : List (String × String))
    (hc : db.conferences.find? (fun c => c.conference_id == cid) = none) :
    upsert db cid nm yr kwargs = (Except.error "Conference not found", db) := by
  simp [upsert, hc]

theorem upsert_unknown_conference_witness :
    emptyDB.conferences.find? (fun c => c.conference_id == "X") = none ∧
    upsert emptyDB "X" "XConf" 2024 [("location", "Y")] =
      (Except.error "Conference not found", emptyDB) :=
  ⟨rfl, upsert_unknown_conference emptyDB "X" "XConf" 2024 [("location", "Y")] rfl⟩

/-- C10: every read operation returns the database state it was given
unchanged; only upsert produces a new state. -/
theorem reads_leave_db_unchanged (db : DB) (y u : Int) (c nm : String) (iid : Nat)
    (yf : YearArg) :
    (get_all_conferences_op db).2 = db ∧
    (get_all_years_op db).2 = db ∧
    (get_conferences_by_year_op db y).2 = db ∧
    (get_conference_years_op db c).2 = db ∧
    (get_conference_stats_op db c yf).2 = db ∧
    (get_yearly_conference_stats_op db u).2 = db ∧
    (get_sessions_by_instance_op db iid).2 = db ∧
    (get_instance_by_year_and_name_op db y nm).2 = db :=
  ⟨rfl, rfl, rfl, rfl, rfl, rfl, rfl, rfl⟩

/-- C9: the swallowing wrappers of get_conference_stats,
get_sessions_by_instance and get_instance_by_year_and_name map any error of
the underlying query to the empty list resp. the absent sentinel, and
get_instance_by_year_and_name with no matching instance returns the absent
sentinel without an error. -/
theorem swallowed_reads_spec :
    (∀ e : String, @catchToList (ConferenceInstance × Nat) (Except.error e) = []) ∧
    (∀ e : String, @catchToList Session (Except.error e) = []) ∧
    (∀ e : String, @catchToOption ConferenceInstance (Except.error e) = none) ∧
    (∀ (db : DB) (yr : Int) (nm : String),
      (∀ i ∈ db.instances, ¬(i.year = yr ∧ i.conference_name = nm)) →
      get_instance_by_year_and_name db yr nm = none) := by
  refine ⟨fun _ => rfl, fun _ => rfl, fun _ => rfl, fun db yr nm h => ?_⟩
  unfold get_instance_by_year_and_name
  rw [List.find?_eq_none]
  intro i hi
  simp only [Bool.and_eq_true, beq_iff_eq]
  exact fun hcontra => h i hi hcontra

theorem swallowed_reads_witness :
    (∀ i ∈ emptyDB.instances, ¬(i.year = 1999 ∧ i.conference_name = "Unknown")) ∧
    get_instance_by_year_and_name emptyDB 1999 "Unknown" = none :=
  ⟨by simp [emptyDB], swallowed_reads_spec.2.2.2 emptyDB 1999 "Unknown" (by simp [emptyDB])⟩

/-- C6: get_all_years returns each year present in the ConferenceInstance
table exactly once, in strictly descending order. -/
theorem get_all_years_spec (db : DB) :
    (∀ y : Int, y ∈ get_all_years db ↔ ∃ i ∈ db.instances, i.year = y) ∧
    List.Sorted (fun a b => b < a) (get_all_years db) := by
  constructor
  · intro y
    simp [get_all_years, List.mem_insertionSort, List.mem_dedup, List.mem_map]
  · exact sorted_gt_of_ge_nodup (List.sorted_insertionSort _ _)
      (((List.perm_insertionSort _ _).nodup_iff).mpr (List.nodup_dedup _))

/-- C5: get_conference_years db c contains a year Y exactly when an instance
of the conference named c exists with year Y, and the sequence is strictly
descending. -/
theorem get_conference_years_spec (db : DB) (c : String) :
    (∀ y : Int, y ∈ get_conference_years db c ↔
      ∃ i ∈ db.instances, i.year = y ∧
        ∃ conf ∈ db.conferences, conf.name = c ∧ conf.conference_id = i.conference_id) ∧
    List.Sorted (fun a b => b < a) (get_conference_years db c) := by
  constructor
  · intro y
    simp only [get_conference_years, List.mem_insertionSort, List.mem_dedup, List.mem_map,
      List.mem_filter, isNamed_iff]
    constructor
    · rintro ⟨i, ⟨hi, hnm⟩, hy⟩
      exact ⟨i, hi, hy, hnm⟩
    · rintro ⟨i, hi, hy, hnm⟩
      exact ⟨i, ⟨hi, hnm⟩, hy⟩
  · exact sorted_gt_of_ge_nodup (List.sorted_insertionSort _ _)
      (((List.perm_insertionSort _ _).nodup_iff).mpr (List.nodup_dedup _))

/-- C7: get_conferences_by_year db y returns exactly the names of conferences
having an instance in year y, each once, in strictly ascending (alphabetical)
order. -/
theorem get_conferences_by_year_spec (db : DB) (y : Int) :
    (∀ nm : String, nm ∈ get_conferences_by_year db y ↔
      ∃ conf ∈ db.conferences, conf.name = nm ∧
        ∃ i ∈ db.instances, i.conference_id = conf.conference_id ∧ i.year = y) ∧
    List.Sorted (· < ·) (get_conferences_by_year db y) := by
  constructor
  · intro nm
    simp only [get_conferences_by_year, List.mem_insertionSort, List.mem_dedup, List.mem_map,
      List.mem_filter, hasInstanceInYear_iff]
    constructor
    · rintro ⟨conf, ⟨hc, i, hi, hcid, hy⟩, hnm⟩
      exact ⟨conf, hc, hnm, i, hi, hcid, hy⟩
    · rintro ⟨conf, hc, hnm, i, hi, hcid, hy⟩
      exact ⟨conf, ⟨hc, i, hi, hcid, hy⟩, hnm⟩
  · exact sorted_lt_of_le_nodup (List.sorted_insertionSort _ _)
      (((List.perm_insertionSort _ _).nodup_iff).mpr (List.nodup_dedup _))

/-- C4 (counterexample): with the integer year argument 0, which is not the
"All Years" sentinel, get_conference_stats nevertheless applies no year
filter and returns the year-5 instance. -/
theorem stats_year_zero_counterexample :
    ∃ p ∈ get_conference_stats yearFilterDB "A" (YearArg.someYear 0), ¬p.1.year = 0 := by
  decide

/-- C4 (amended): for every nonzero integer year argument the returned pairs
all carry exactly that year; when the argument is absent, the sentinel, or
the (falsy) integer 0, no year filter is applied. -/
theorem get_conference_stats_year_filter (db : DB) (c : String) :
    (∀ n : Int, n ≠ 0 → ∀ p ∈ get_conference_stats db c (YearArg.someYear n), p.1.year = n) ∧
    get_conference_stats db c YearArg.allYears = get_conference_stats db c YearArg.noYear ∧
    get_conference_stats db c (YearArg.someYear 0) =
      get_conference_stats db c YearArg.noYear := by
  refine ⟨?_, ?_, ?_⟩
  · intro n hn p hp
    unfold get_conference_stats at hp
    rw [List.mem_insertionSort] at hp
    obtain ⟨i, hi, rfl⟩ := List.mem_map.mp hp
    have hfy := (List.mem_filter.mp hi).2
    rw [Bool.and_eq_true] at hfy
    have := hfy.2
    simp [matchesYearFilter, hn] at this
    exact this
  · rfl
  · have hf : (fun i : ConferenceInstance =>
        isNamed db c i.conference_id && matchesYearFilter (YearArg.someYear 0) i.year) =
        (fun i : ConferenceInstance =>
          isNamed db c i.conference_id && matchesYearFilter YearArg.noYear i.year) := by
      funext i
      simp [matchesYearFilter]
    unfold get_conference_stats
    rw [hf]

theorem length_filter_le_one_of_nodup_map {α β : Type} [DecidableEq β] (g : α → β) (b : β)
    (p : α → Bool) (hp : ∀ a, p a = true → g a = b) :
    ∀ l : List α, (l.map g).Nodup → (l.filter p).length ≤ 1
  | [], _ => by simp
  | x :: t, hnd => by
    simp only [List.map, List.nodup_cons] at hnd
    cases hx : p x
    · rw [List.filter_cons_of_neg (by simp [hx])]
      exact length_filter_le_one_of_nodup_map g b p hp t hnd.2
    · rw [List.filter_cons_of_pos hx]
      have ht : t.filter p = [] := by
        rw [List.filter_eq_nil_iff]
        intro a ha hpa
        exact hnd.1 (List.mem_map.mpr ⟨a, ha, (hp a hpa).trans (hp x hx).symm⟩)
      rw [ht]
      simp

theorem confMult_eq_one (db : DB) (c cid : String)
    (h1 : (db.conferences.map Conference.conference_id).Nodup)
    (hn : isNamed db c cid = true) : confMult db c cid = 1 := by
  have hle : confMult db c cid ≤ 1 :=
    length_filter_le_one_of_nodup_map Conference.conference_id cid
      (fun conf => conf.name == c && conf.conference_id == cid)
      (fun a ha => by
        rw [Bool.and_eq_true] at ha
        simpa using ha.2)
      db.conferences h1
  have hpos : 0 < confMult db c cid := by
    rw [isNamed_iff] at hn
    obtain ⟨conf, hc, hnm, hcid⟩ := hn
    exact List.length_pos_of_mem (List.mem_filter.mpr ⟨hc, by simp [hnm, hcid]⟩)
  omega

/-- C1: in a state whose Conference and ConferenceInstance primary keys are
unique (the schema identities), get_conference_stats returns one pair per
instance of the named conference surviving the year filter, each counted
with exactly the number of Paper rows bearing its instance_id, ordered by
instance year descending. -/
theorem get_conference_stats_spec (db : DB) (c : String) (yf : YearArg)
    (h1 : (db.conferences.map Conference.conference_id).Nodup)
    (h2 : (db.instances.map ConferenceInstance.instance_id).Nodup) :
    (∀ inst : ConferenceInstance,
      inst ∈ (get_conference_stats db c yf).map Prod.fst ↔
        inst ∈ db.instances ∧
          (∃ conf ∈ db.conferences, conf.name = c ∧ conf.conference_id = inst.conference_id) ∧
          matchesYearFilter yf inst.year = true) ∧
    ((get_conference_stats db c yf).map Prod.fst).Nodup ∧
    (∀ p ∈ get_conference_stats db c yf, p.2 = paperCount db p.1.instance_id) ∧
    List.Sorted (fun a b => b ≤ a) ((get_conference_stats db c yf).map (fun p => p.1.year)) := by
  have hperm : ((get_conference_stats db c yf).map Prod.fst).Perm
      (db.instances.filter
        (fun i => isNamed db c i.conference_id && matchesYearFilter yf i.year)) := by
    unfold get_conference_stats
    have h3 := (List.perm_insertionSort
      (fun p q : ConferenceInstance × Nat => q.1.year ≤ p.1.year)
      ((db.instances.filter
          (fun i => isNamed db c i.conference_id && matchesYearFilter yf i.year)).map
        (fun i => (i, confMult db c i.conference_id * paperCount db i.instance_id)))).map
      Prod.fst
    simpa [List.map_map, Function.comp_def] using h3
  refine ⟨?_, ?_, ?_, ?_⟩
  · intro inst
    rw [hperm.mem_iff, List.mem_filter, Bool.and_eq_true, isNamed_iff]
  · exact hperm.nodup_iff.mpr
      (List.Nodup.filter _ (List.Nodup.of_map ConferenceInstance.instance_id h2))
  · intro p hp
    unfold get_conference_stats at hp
    rw [List.mem_insertionSort] at hp
    obtain ⟨i, hi, rfl⟩ := List.mem_map.mp hp
    have hnm := (List.mem_filter.mp hi).2
    rw [Bool.and_eq_true] at hnm
    have hone := confMult_eq_one db c i.conference_id h1 hnm.1
    simp [hone]
  · have hs : List.Sorted (fun p q : ConferenceInstance × Nat => q.1.year ≤ p.1.year)
        (get_conference_stats db c yf) := by
      unfold get_conference_stats
      exact List.sorted_insertionSort _ _
    exact List.Pairwise.map _ (fun a b h => h) hs

theorem get_conference_stats_spec_witness :
    ((aaaiDB.conferences.map Conference.conference_id).Nodup ∧
     (aaaiDB.instances.map ConferenceInstance.instance_id).Nodup) ∧
    ∀ p ∈ get_conference_stats aaaiDB "AAAI" YearArg.noYear,
      p.2 = paperCount aaaiDB p.1.instance_id :=
  ⟨⟨by decide, by decide⟩,
   (get_conference_stats_spec aaaiDB "AAAI" YearArg.noYear (by decide) (by decide)).2.2.1⟩

theorem stats_year_filter_witness :
    (3 : Int) ≠ 0 ∧
    ∀ p ∈ get_conference_stats yearFilterDB "A" (YearArg.someYear 3), p.1.year = 3 :=
  ⟨by decide, (get_conference_stats_year_filter yearFilterDB "A").1 3 (by decide)⟩

theorem upsert_filter_pair_nil (db : DB) (cid nm : String) (yr : Int)
    (kwargs : List (String × String))
    (hc : (db.conferences.find? (fun c => c.conference_id == cid)).isSome = true)
    (hl : db.instances.filter (pairPred cid yr) = []) :
    ((upsert db cid nm yr kwargs).2).instances.filter (pairPred cid yr) =
      [{ instance_id := db.nextInstanceId, conference_id := cid,
         conference_name := nm, year := yr, extra := dictOf kwargs }] := by
  rw [upsert_filter_pair db cid nm yr kwargs hc, hl]

theorem upsert_filter_pair_cons (db : DB) (cid nm : String) (yr : Int)
    (kwargs : List (String × String)) (a : ConferenceInstance) (t : List ConferenceInstance)
    (hc : (db.conferences.find? (fun c => c.conference_id == cid)).isSome = true)
    (hl : db.instances.filter (pairPred cid yr) = a :: t) :
    ((upsert db cid nm yr kwargs).2).instances.filter (pairPred cid yr) =
      setattrs a kwargs :: t := by
  rw [upsert_filter_pair db cid nm yr kwargs hc, hl]

/-- C2: starting from a state respecting the uniqueness invariant for the
pair (conference_id, year) and containing the parent conference, two upserts
with the same arguments leave exactly one instance row for that pair and
that row carries every supplied field value. -/
theorem upsert_idempotent (db : DB) (cid nm : String) (yr : Int)
    (kwargs : List (String × String))
    (hc : (db.conferences.find? (fun c => c.conference_id == cid)).isSome = true)
    (hu : (db.instances.filter (pairPred cid yr)).length ≤ 1)
    (hk : (kwargs.map Prod.fst).Nodup) :
    ((upsert (upsert db cid nm yr kwargs).2 cid nm yr kwargs).2.instances.filter
        (pairPred cid yr)).length = 1 ∧
    ∀ row ∈ (upsert (upsert db cid nm yr kwargs).2 cid nm yr kwargs).2.instances.filter
        (pairPred cid yr), ∀ kv ∈ kwargs, lookupField row.extra kv.1 = some kv.2 := by
  have hc2 : ((upsert db cid nm yr kwargs).2.conferences.find?
      (fun c => c.conference_id == cid)).isSome = true := by
    rw [upsert_conferences]
    exact hc
  cases hl : db.instances.filter (pairPred cid yr) with
  | nil =>
    have e1 := upsert_filter_pair_nil db cid nm yr kwargs hc hl
    have e2 := upsert_filter_pair_cons (upsert db cid nm yr kwargs).2 cid nm yr kwargs
      _ [] hc2 e1
    rw [e2]
    refine ⟨rfl, ?_⟩
    intro row hrow kv hkv
    rw [List.mem_singleton] at hrow
    subst hrow
    exact lookupField_foldl_mem kwargs _ hk kv hkv
  | cons a t =>
    have ht : t = [] := by
      rw [hl] at hu
      simpa using hu
    subst ht
    have e1 := upsert_filter_pair_cons db cid nm yr kwargs a [] hc hl
    have e2 := upsert_filter_pair_cons (upsert db cid nm yr kwargs).2 cid nm yr kwargs
      _ [] hc2 e1
    rw [e2]
    refine ⟨rfl, ?_⟩
    intro row hrow kv hkv
    rw [List.mem_singleton] at hrow
    subst hrow
    exact lookupField_foldl_mem kwargs _ hk kv hkv

theorem upsert_idempotent_witness :
    ((upsertDB.conferences.find? (fun c => c.conference_id == "neu")).isSome = true ∧
     (upsertDB.instances.filter (pairPred "neu" 2024)).length ≤ 1) ∧
    ((upsert (upsert upsertDB "neu" "NeurIPS" 2024 [("location", "Vancouver")]).2
        "neu" "NeurIPS" 2024 [("location", "Vancouver")]).2.instances.filter
      (pairPred "neu" 2024)).length = 1 :=
  ⟨⟨by decide, by decide⟩,
   (upsert_idempotent upsertDB "neu" "NeurIPS" 2024 [("location", "Vancouver")]
     (by decide) (by decide) (by decide)).1⟩

/-- C8: when the parent conference exists, upsert overwrites each supplied
extra field on the existing (conference_id, year) instance and returns it,
or, with no such instance, creates and returns a new instance carrying
conference_name = name and the supplied fields. -/
theorem upsert_existing_conference (db : DB) (cid nm : String) (yr : Int)
    (kwargs : List (String × String))
    (hk : (kwargs.map Prod.fst).Nodup) :
    ∀ conf, db.conferences.find? (fun c => c.conference_id == cid) = some conf →
      ((∀ inst, db.instances.find? (pairPred cid yr) = some inst →
        upsert db cid nm yr kwargs =
          (Except.ok (setattrs inst kwargs),
           { db with instances := (updateFirst db.instances (pairPred cid yr)
               (fun i => setattrs i kwargs)) }) ∧
        ∀ kv ∈ kwargs, lookupField (setattrs inst kwargs).extra kv.1 = some kv.2) ∧
      (db.instances.find? (pairPred cid yr) = none →
        ∃ r : ConferenceInstance,
          upsert db cid nm yr kwargs =
            (Except.ok r,
             { db with instances := db.instances ++ [r],
                       nextInstanceId := db.nextInstanceId + 1 }) ∧
          r.conference_name = nm ∧ r.conference_id = cid ∧ r.year = yr ∧
          ∀ kv ∈ kwargs, lookupField r.extra kv.1 = some kv.2)) := by
  intro conf hconf
  constructor
  · intro inst hinst
    constructor
    · simp [upsert, hconf, hinst]
    · intro kv hkv
      exact lookupField_foldl_mem kwargs inst.extra hk kv hkv
  · intro hnone
    refine ⟨{ instance_id := db.nextInstanceId, conference_id := cid,
              conference_name := nm, year := yr, extra := dictOf kwargs },
            ?_, rfl, rfl, rfl, ?_⟩
    · simp [upsert, hconf, hnone]
    · intro kv hkv
      exact lookupField_foldl_mem kwargs [] hk kv hkv

theorem upsert_existing_conference_witness :
    ∃ r : ConferenceInstance,
      upsert upsertDB "neu" "NeurIPS" 2024 [("location", "Vancouver")] =
        (Except.ok r,
         { upsertDB with instances := upsertDB.instances ++ [r],
                         nextInstanceId := upsertDB.nextInstanceId + 1 }) ∧
      r.conference_name = "NeurIPS" ∧ r.conference_id = "neu" ∧ r.year = 2024 ∧
      ∀ kv ∈ [("location", "Vancouver")], lookupField r.extra kv.1 = some kv.2 :=
  ((upsert_existing_conference upsertDB "neu" "NeurIPS" 2024 [("location", "Vancouver")]
      (by decide)) ⟨"neu", "NeurIPS"⟩ (by decide)).2 (by decide)

end ConfRepo
